import Mathlib

/-!
Shallow embedding of the git2-ureq smart-HTTP subtransport (src/lib.rs).

The adapter wires a ureq-based HTTP client into git2's smart subtransport
interface.  We embed the pure control flow of the Rust code:

* `Service` and the action triple returned by `UreqTransport::action`;
* the shared base-URL cell updated by `action`;
* `UreqSubtransport` state (service, path, method, optional response
  reader, `sent_request` flag);
* `execute`, `read`, `write`, `flush` as state transformers.

External collaborators (the `url` crate's parser and ureq's `send`) are
modelled as an explicit environment `Env` passed to `execute`: the code
under scrutiny only inspects their results.  `request.send(data).unwrap()`
in the source panics when `send` returns an `Err`; the model records this
as a distinct `panicked` outcome, separate from the `io::Error` channel.
Every request handed to `Env.send` is also returned in the `sent` list of
the result, so that theorems can count network calls.
-/

/-- The four git2 transport services (git2::transport::Service). -/
inductive Service
  | uploadPackLs
  | uploadPack
  | receivePackLs
  | receivePack
  deriving DecidableEq, Repr

/-- The (service-name, url-path, method) triple computed by the `match action`
in `UreqTransport::action` (src/lib.rs lines 53-60). -/
def actionTriple : Service → String × String × String
  | .uploadPackLs => ("upload-pack", "/info/refs?service=git-upload-pack", "GET")
  | .uploadPack => ("upload-pack", "/git-upload-pack", "POST")
  | .receivePackLs => ("receive-pack", "/info/refs?service=git-receive-pack", "GET")
  | .receivePack => ("receive-pack", "/git-receive-pack", "POST")

/-- Result of `url::Url::parse` as far as the adapter inspects it:
the parsed URL's host component (`parsed.host_str()`). -/
structure UrlParts where
  host : Option String
  deriving DecidableEq, Repr

/-- An HTTP response as far as the adapter inspects it: `response.status()`,
`response.header("Content-Type")` and `response.into_reader()`. -/
structure HttpResponse where
  status : Nat
  contentType : Option String
  body : List UInt8
  deriving DecidableEq, Repr

/-- Outcome of `ureq::Request::send`: either a delivered response or an
error (transport failure such as connection refused / TLS / DNS). -/
inductive SendResult
  | ok (resp : HttpResponse)
  | sendError (msg : String)
  deriving DecidableEq, Repr

/-- The HTTP request assembled by `execute` and handed to ureq. -/
structure Request where
  method : String
  url : String
  headers : List (String × String)
  body : List UInt8
  deriving DecidableEq, Repr

/-- The external collaborators of `execute`: the `url` crate parser
(`none` = parse failure), ureq's blocking `send`, and the crate version
baked into the User-Agent string. -/
structure Env where
  parseUrl : String → Option UrlParts
  send : Request → SendResult
  version : String

/-- Per-action stream state (struct `UreqSubtransport`, src/lib.rs lines
21-28).  `reader` holds the remaining unread bytes of the response body. -/
structure UreqSubtransport where
  service : String
  url_path : String
  method : String
  reader : Option (List UInt8)
  sent_request : Bool
  deriving DecidableEq, Repr

/-- `UreqTransport::action` (src/lib.rs lines 44-70): takes the current
contents of the shared `base_url` cell and the caller's `url`, returns the
new cell contents together with the fresh stream.  The cell is written only
when it is currently empty. -/
def action (base_url : String) (url : String) (svc : Service) :
    String × UreqSubtransport :=
  let base_url := if base_url.length = 0 then url else base_url
  let t := actionTriple svc
  (base_url,
    { service := t.1
      url_path := t.2.1
      method := t.2.2
      reader := none
      sent_request := false })

/-- `UreqTransport::close` (src/lib.rs lines 72-74): always succeeds. -/
def closeTransport : Except String Unit := .ok ()

/-- The shared base-URL cell after a sequence of `action` calls, each with
its caller-supplied url and service. -/
def sessionSteps (base : String) : List (String × Service) → String
  | [] => base
  | p :: rest => sessionSteps (action base p.1 p.2).1 rest

/-- The error messages built at the `UreqSubtransport::err` call sites. -/
def alreadyExecutedMsg : String := "already sent HTTP request"

def invalidUrlMsg : String := "invalid url, failed to parse"

def missingHostMsg : String := "invalid url, did not have a host"

def unexpectedStatusMsg (code : Nat) : String :=
  "failed to receive HTTP 200 response: got " ++ toString code

def contentTypeMismatchMsg (expected found : String) : String :=
  "expected a Content-Type header with `" ++ expected ++ "` but found `"
    ++ found ++ "`"

def missingContentTypeMsg (expected : String) : String :=
  "expected a Content-Type header with `" ++ expected
    ++ "` but didn\x27t find one"

/-- Outcome of `UreqSubtransport::execute`: `Ok(())`, an `io::Error` with
the given message, or a Rust panic (from `.unwrap()` on an `Err`). -/
inductive ExecOutcome
  | ok
  | ioError (msg : String)
  | panicked (msg : String)
  deriving DecidableEq, Repr

/-- Result of running `execute`: the updated stream state, the list of HTTP
requests handed to the client during the call, and the outcome. -/
structure ExecResult where
  state : UreqSubtransport
  sent : List Request
  outcome : ExecOutcome
  deriving Repr

/-- The User-Agent string (src/lib.rs line 87). -/
def agentString (version : String) : String :=
  "git/1.0 (git2-ureq " ++ version ++ ")"

/-- The expected response media type (src/lib.rs lines 126-129). -/
def expectedContentType (method service : String) : String :=
  if method = "GET" then "application/x-git-" ++ service ++ "-advertisement"
  else "application/x-git-" ++ service ++ "-result"

/-- The header set assembled in src/lib.rs lines 99-115.  Note the source
misspells the request content-type header as "Conent-Type". -/
def requestHeaders (version host service : String) (data : List UInt8) :
    List (String × String) :=
  [("User-Agent", agentString version), ("Host", host), ("Expect", "")]
    ++ (if data.isEmpty then [("Accept", "*/*")]
        else [("Accept", "application/x-git-" ++ service ++ "-result"),
              ("Conent-Type", "application/x-git-" ++ service ++ "-request")])

/-- The request `execute` hands to `ureq` once URL parsing succeeded with
the given host (src/lib.rs lines 99-117). -/
def builtRequest (version host : String) (st : UreqSubtransport)
    (url : String) (data : List UInt8) : Request :=
  { method := st.method
    url := url
    headers := requestHeaders version host st.service data
    body := data }

/-- `UreqSubtransport::execute` (src/lib.rs lines 82-153).  `base_url` is
the current contents of the shared cell (read at line 90). -/
def execute (env : Env) (base_url : String) (st : UreqSubtransport)
    (data : List UInt8) : ExecResult :=
  if st.sent_request then
    { state := st, sent := [], outcome := .ioError alreadyExecutedMsg }
  else
    let url := base_url ++ st.url_path
    match env.parseUrl url with
    | none => { state := st, sent := [], outcome := .ioError invalidUrlMsg }
    | some parsed =>
      match parsed.host with
      | none => { state := st, sent := [], outcome := .ioError missingHostMsg }
      | some host =>
        let req := builtRequest env.version host st url data
        match env.send req with
        | .sendError msg =>
          { state := st, sent := [req], outcome := .panicked msg }
        | .ok response =>
          let content_type := response.contentType
          let code := response.status
          if code ≠ 200 then
            { state := st, sent := [req]
              outcome := .ioError (unexpectedStatusMsg code) }
          else
            let expected := expectedContentType st.method st.service
            match content_type with
            | some ct =>
              if ct ≠ expected then
                { state := st, sent := [req]
                  outcome := .ioError (contentTypeMismatchMsg expected ct) }
              else
                { state := { st with reader := some response.body }
                  sent := [req], outcome := .ok }
            | none =>
              { state := st, sent := [req]
                outcome := .ioError (missingContentTypeMsg expected) }

/-- Outcome of one stream operation (`Read::read`, `Write::write`,
`Write::flush`): successful reads return bytes, successful writes return
the written length, flush returns unit; failures are `io::Error`s or
panics. -/
inductive StreamOutcome
  | bytes (bs : List UInt8)
  | wrote (n : Nat)
  | unit
  | ioError (msg : String)
  | panicked (msg : String)
  deriving DecidableEq, Repr

/-- Result of one stream operation. -/
structure OpResult where
  state : UreqSubtransport
  sent : List Request
  outcome : StreamOutcome
  deriving Repr

/-- `Read::read for UreqSubtransport` (src/lib.rs lines 156-164), reading
into a buffer of length `bufLen`.  When no reader is present, `execute`
runs with the empty payload; on its success the reader is unwrapped and
read (the unreachable `None` after a successful execute is modelled as the
panic `.unwrap()` would raise). -/
def streamRead (env : Env) (base_url : String) (st : UreqSubtransport)
    (bufLen : Nat) : OpResult :=
  match st.reader with
  | some r =>
    { state := { st with reader := some (r.drop bufLen) }, sent := []
      outcome := .bytes (r.take bufLen) }
  | none =>
    let e := execute env base_url st []
    match e.outcome with
    | .ioError m => { state := e.state, sent := e.sent, outcome := .ioError m }
    | .panicked m =>
      { state := e.state, sent := e.sent, outcome := .panicked m }
    | .ok =>
      match e.state.reader with
      | some r =>
        { state := { e.state with reader := some (r.drop bufLen) }
          sent := e.sent, outcome := .bytes (r.take bufLen) }
      | none =>
        { state := e.state, sent := e.sent
          outcome := .panicked "called Option::unwrap on a None value" }

/-- `Write::write for UreqSubtransport` (src/lib.rs lines 167-172). -/
def streamWrite (env : Env) (base_url : String) (st : UreqSubtransport)
    (data : List UInt8) : OpResult :=
  match st.reader with
  | some _ => { state := st, sent := [], outcome := .wrote data.length }
  | none =>
    let e := execute env base_url st data
    match e.outcome with
    | .ioError m => { state := e.state, sent := e.sent, outcome := .ioError m }
    | .panicked m =>
      { state := e.state, sent := e.sent, outcome := .panicked m }
    | .ok => { state := e.state, sent := e.sent, outcome := .wrote data.length }

/-- `Write::flush for UreqSubtransport` (src/lib.rs lines 174-176). -/
def streamFlush (st : UreqSubtransport) : OpResult :=
  { state := st, sent := [], outcome := .unit }

/-- One operation invoked by the host engine on a stream. -/
inductive Op
  | read (bufLen : Nat)
  | write (data : List UInt8)
  | flush
  deriving DecidableEq, Repr

/-- Dispatch one operation. -/
def stepOp (env : Env) (base_url : String) (st : UreqSubtransport) :
    Op → OpResult
  | .read bufLen => streamRead env base_url st bufLen
  | .write data => streamWrite env base_url st data
  | .flush => streamFlush st

/-- Result of a sequence of operations: final state, every request handed
to the HTTP client along the way (in order), and the outcome of each
operation. -/
structure RunResult where
  state : UreqSubtransport
  sent : List Request
  outcomes : List StreamOutcome
  deriving Repr

/-- Run a sequence of stream operations. -/
def runOps (env : Env) (base_url : String) (st : UreqSubtransport) :
    List Op → RunResult
  | [] => { state := st, sent := [], outcomes := [] }
  | op :: rest =>
    let r := stepOp env base_url st op
    let rr := runOps env base_url r.state rest
    { state := rr.state, sent := r.sent ++ rr.sent
      outcomes := r.outcome :: rr.outcomes }

/-- No outcome in the list is the AlreadyExecuted error. -/
def NoAlreadyExecuted (outs : List StreamOutcome) : Prop :=
  ∀ o ∈ outs, o ≠ .ioError alreadyExecutedMsg

/-! ### Concrete environments used as test inputs -/

/-- A URL parser that resolves every string to host "example.test". -/
def okParse : String → Option UrlParts := fun _ => some ⟨some "example.test"⟩

/-- A resolved base URL as fixed by a first action. -/
def base0 : String := "https://example.test/repo.git"

/-- An HTTP client that answers every request with status 500. -/
def env500 : Env :=
  { parseUrl := okParse
    send := fun _ => .ok ⟨500, some "text/plain", []⟩
    version := "0.1.0" }

/-- A fresh stream for the upload-pack advertisement action. -/
def stream0 : UreqSubtransport := (action "" base0 .uploadPackLs).2

/-- An HTTP client that answers every request with 200 and the
receive-pack result content type. -/
def envRP : Env :=
  { parseUrl := okParse
    send := fun _ =>
      .ok ⟨200, some "application/x-git-receive-pack-result", [48, 48, 48, 56]⟩
    version := "0.1.0" }

/-- A fresh stream for the receive-pack exchange action. -/
def streamRP : UreqSubtransport := (action "" base0 .receivePack).2

/-- An HTTP client whose send fails with a transport-level error. -/
def envRefused : Env :=
  { parseUrl := okParse
    send := fun _ => .sendError "Connection refused"
    version := "0.1.0" }

/-! ### Helper lemmas -/

/-- `execute` never writes the `sent_request` field: the source sets it at
construction only (src/lib.rs line 68) and never assigns it again. -/
theorem execute_state_sent_request (env : Env) (b : String)
    (st : UreqSubtransport) (data : List UInt8) :
    (execute env b st data).state.sent_request = st.sent_request := by
  simp only [execute]
  repeat' split
  all_goals rfl

theorem unexpectedStatusMsg_ne_already (code : Nat) :
    unexpectedStatusMsg code ≠ alreadyExecutedMsg := by
  intro h
  have hl := congrArg String.length h
  rw [unexpectedStatusMsg, String.length_append] at hl
  have h1 : 25 < "failed to receive HTTP 200 response: got ".length := by decide
  have h2 : alreadyExecutedMsg.length = 25 := by decide
  omega

theorem contentTypeMismatchMsg_ne_already (e f : String) :
    contentTypeMismatchMsg e f ≠ alreadyExecutedMsg := by
  intro h
  have hl := congrArg String.length h
  simp only [contentTypeMismatchMsg, String.length_append] at hl
  have h1 : 25 < "expected a Content-Type header with `".length := by decide
  have h2 : alreadyExecutedMsg.length = 25 := by decide
  omega

theorem missingContentTypeMsg_ne_already (e : String) :
    missingContentTypeMsg e ≠ alreadyExecutedMsg := by
  intro h
  have hl := congrArg String.length h
  simp only [missingContentTypeMsg, String.length_append] at hl
  have h1 : 25 < "expected a Content-Type header with `".length := by decide
  have h2 : alreadyExecutedMsg.length = 25 := by decide
  omega

/-- On a stream whose `sent_request` flag is false, `execute` cannot
return the AlreadyExecuted error: every other error message differs. -/
theorem execute_not_already (env : Env) (b : String) (st : UreqSubtransport)
    (data : List UInt8) (h : st.sent_request = false) :
    (execute env b st data).outcome ≠ .ioError alreadyExecutedMsg := by
  simp only [execute, h, Bool.false_eq_true, if_false]
  repeat' split
  · intro hc; exact absurd (ExecOutcome.ioError.inj hc) (by decide)
  · intro hc; exact absurd (ExecOutcome.ioError.inj hc) (by decide)
  · intro hc; exact ExecOutcome.noConfusion hc
  · intro hc; exact unexpectedStatusMsg_ne_already _ (ExecOutcome.ioError.inj hc)
  · intro hc; exact contentTypeMismatchMsg_ne_already _ _ (ExecOutcome.ioError.inj hc)
  · intro hc; exact ExecOutcome.noConfusion hc
  · intro hc; exact missingContentTypeMsg_ne_already _ (ExecOutcome.ioError.inj hc)

/-- Every request `execute` hands to the client carries the caller's
payload as its body. -/
theorem execute_sent_body (env : Env) (b : String) (st : UreqSubtransport)
    (data : List UInt8) :
    ∀ req ∈ (execute env b st data).sent, req.body = data := by
  simp only [execute]
  repeat' split
  all_goals intro req hreq
  all_goals simp_all [builtRequest]

/-- Every request `execute` hands to the client targets the concatenation
of the base URL it was given and the stream's path suffix. -/
theorem execute_sent_url (env : Env) (b : String) (st : UreqSubtransport)
    (data : List UInt8) :
    ∀ req ∈ (execute env b st data).sent, req.url = b ++ st.url_path := by
  simp only [execute]
  repeat' split
  all_goals intro req hreq
  all_goals simp_all [builtRequest]

theorem stepOp_state_sent_request (env : Env) (b : String)
    (st : UreqSubtransport) (op : Op) :
    (stepOp env b st op).state.sent_request = st.sent_request := by
  cases op with
  | read n =>
    simp only [stepOp, streamRead]
    repeat' split
    all_goals simp_all [execute_state_sent_request]
  | write data =>
    simp only [stepOp, streamWrite]
    repeat' split
    all_goals simp_all [execute_state_sent_request]
  | flush => rfl

theorem stepOp_not_already (env : Env) (b : String) (st : UreqSubtransport)
    (op : Op) (h : st.sent_request = false) :
    (stepOp env b st op).outcome ≠ .ioError alreadyExecutedMsg := by
  cases op with
  | read n =>
    simp only [stepOp, streamRead]
    repeat' split
    · intro hc; exact StreamOutcome.noConfusion hc
    · rename_i heq
      intro hc
      have hmsg := StreamOutcome.ioError.inj hc
      exact execute_not_already env b st [] h (hmsg ▸ heq)
    · intro hc; exact StreamOutcome.noConfusion hc
    · intro hc; exact StreamOutcome.noConfusion hc
    · intro hc; exact StreamOutcome.noConfusion hc
  | write data =>
    simp only [stepOp, streamWrite]
    repeat' split
    · intro hc; exact StreamOutcome.noConfusion hc
    · rename_i heq
      intro hc
      have hmsg := StreamOutcome.ioError.inj hc
      exact execute_not_already env b st data h (hmsg ▸ heq)
    · intro hc; exact StreamOutcome.noConfusion hc
    · intro hc; exact StreamOutcome.noConfusion hc
  | flush => intro hc; exact StreamOutcome.noConfusion hc

/-- The run invariant: starting from a stream whose flag is false, the
flag stays false and no operation ever yields the AlreadyExecuted error. -/
theorem runOps_invariant (env : Env) (b : String) (ops : List Op)
    (st : UreqSubtransport) (h : st.sent_request = false) :
    (runOps env b st ops).state.sent_request = false
    ∧ ∀ o ∈ (runOps env b st ops).outcomes, o ≠ .ioError alreadyExecutedMsg := by
  induction ops generalizing st with
  | nil => exact ⟨h, by simp [runOps]⟩
  | cons op rest ih =>
    have hstep : (stepOp env b st op).state.sent_request = false := by
      rw [stepOp_state_sent_request]; exact h
    obtain ⟨h1, h2⟩ := ih (stepOp env b st op).state hstep
    refine ⟨by simpa [runOps] using h1, ?_⟩
    intro o ho
    simp only [runOps, List.mem_cons] at ho
    rcases ho with ho | ho
    · rw [ho]; exact stepOp_not_already env b st op h
    · exact h2 o ho

/-- `action` leaves a non-empty base-URL cell unchanged. -/
theorem action_keeps_nonempty (b u : String) (s : Service) (h : b.length ≠ 0) :
    (action b u s).1 = b := by
  simp [action, h]

/-- A non-empty base-URL cell survives any sequence of further actions. -/
theorem sessionSteps_keeps_nonempty (rest : List (String × Service))
    (b : String) (h : b.length ≠ 0) : sessionSteps b rest = b := by
  induction rest generalizing b with
  | nil => rfl
  | cons p rest ih =>
    rw [sessionSteps, action_keeps_nonempty b p.1 p.2 h]
    exact ih b h

/-! ### Claim theorems -/

/-- C8: the Action Mapper is total on the four transport actions (it is a
Lean function on `Service`, hence never fails) and returns exactly the four
triples of spec section 4.1: AdvertiseUploadPack = uploadPackLs,
ExecuteUploadPack = uploadPack, AdvertiseReceivePack = receivePackLs,
ExecuteReceivePack = receivePack. -/
theorem actionTriple_exact :
    actionTriple .uploadPackLs
        = ("upload-pack", "/info/refs?service=git-upload-pack", "GET")
      ∧ actionTriple .uploadPack = ("upload-pack", "/git-upload-pack", "POST")
      ∧ actionTriple .receivePackLs
        = ("receive-pack", "/info/refs?service=git-receive-pack", "GET")
      ∧ actionTriple .receivePack = ("receive-pack", "/git-receive-pack", "POST") :=
  ⟨rfl, rfl, rfl, rfl⟩

/-- C1: evidence of the code bug.  After `execute` fails at response
validation (status 500), the stream is not permanently failed: a second
read runs `execute` again and a second HTTP request is handed to the
client (two requests total), and neither attempt fails with the
AlreadyExecuted error, because `sent_request` is never set. -/
theorem two_calls_after_failed_validation :
    (runOps env500 base0 stream0 [.read 1, .read 1]).sent.length = 2
    ∧ (runOps env500 base0 stream0 [.read 1, .read 1]).outcomes
        = [.ioError (unexpectedStatusMsg 500), .ioError (unexpectedStatusMsg 500)] := by
  decide

/-- C2: evidence of the code bug.  Executing with a non-empty payload
(first write on a receive-pack stream) issues exactly one request; its
header list contains the misspelled name "Conent-Type" and no header
named "Content-Type", while the Accept header is as specified. -/
theorem request_content_type_header_misspelled :
    (streamWrite envRP base0 streamRP [55]).sent
      = [{ method := "POST"
           url := "https://example.test/repo.git/git-receive-pack"
           headers := [("User-Agent", "git/1.0 (git2-ureq 0.1.0)"),
                       ("Host", "example.test"), ("Expect", ""),
                       ("Accept", "application/x-git-receive-pack-result"),
                       ("Conent-Type", "application/x-git-receive-pack-request")]
           body := [55] }]
    ∧ ((streamWrite envRP base0 streamRP [55]).sent.map
        (fun rq => rq.headers.lookup "Content-Type")) = [none] := by
  decide

/-- C3: validating the response status.  When the client delivers a
response whose status is not 200, `execute` returns the UnexpectedStatus
io-error with that code, leaves the stream state unchanged (no reader is
retained), and a read on the stream surfaces the same error instead of
yielding bytes. -/
theorem execute_non200 (env : Env) (base : String) (st : UreqSubtransport)
    (data : List UInt8) (bufLen : Nat) (parsed : UrlParts) (host : String)
    (resp : HttpResponse)
    (hsr : st.sent_request = false) (hrd : st.reader = none)
    (hp : env.parseUrl (base ++ st.url_path) = some parsed)
    (hh : parsed.host = some host)
    (hsend : ∀ r, env.send r = .ok resp)
    (hcode : resp.status ≠ 200) :
    (execute env base st data).outcome = .ioError (unexpectedStatusMsg resp.status)
    ∧ (execute env base st data).state = st
    ∧ (streamRead env base st bufLen).outcome
        = .ioError (unexpectedStatusMsg resp.status)
    ∧ ∀ bs, (streamRead env base st bufLen).outcome ≠ .bytes bs := by
  have hm : ∀ d : List UInt8, execute env base st d
      = { state := st
          sent := [builtRequest env.version host st (base ++ st.url_path) d]
          outcome := .ioError (unexpectedStatusMsg resp.status) } := by
    intro d
    simp only [execute, hsr, Bool.false_eq_true, if_false, hp, hh, hsend, ne_eq,
      hcode, not_false_eq_true, if_true]
  have hr : (streamRead env base st bufLen).outcome
      = .ioError (unexpectedStatusMsg resp.status) := by
    simp only [streamRead, hrd, hm]
  refine ⟨by rw [hm], by rw [hm], hr, ?_⟩
  intro bs hc
  rw [hr] at hc
  exact StreamOutcome.noConfusion hc

/-- C3 witness: a 500 response on a fresh upload-pack advertisement
stream produces the UnexpectedStatus error. -/
theorem execute_non200_witness :
    (execute env500 base0 stream0 []).outcome
      = .ioError (unexpectedStatusMsg 500) :=
  (execute_non200 env500 base0 stream0 [] 1 ⟨some "example.test"⟩
    "example.test" ⟨500, some "text/plain", []⟩ rfl rfl rfl rfl
    (fun _ => rfl) (by decide)).1

/-- C4: evidence of the code bug.  When the HTTP client's `send` returns a
transport-level error (connection refused), the stream operation does not
return it through the `io::Result` error channel: `.unwrap()` panics. -/
theorem transport_error_panics :
    (streamRead envRefused base0 stream0 1).outcome
      = .panicked "Connection refused" := by
  decide

/-- C5: evidence of the code bug.  After a first write has issued the HTTP
call (one request sent), a second write returns success `wrote 1` — it
neither fails with the AlreadyExecuted error nor sends anything. -/
theorem second_write_silently_succeeds :
    (runOps envRP base0 streamRP [.write [120], .write [121]]).outcomes
        = [.wrote 1, .wrote 1]
    ∧ (runOps envRP base0 streamRP [.write [120], .write [121]]).sent.length = 1 := by
  decide

/-- C6 counterexample: a write on an Idle stream (no call issued, nothing
buffered) immediately hands one HTTP request to the client, contradicting
the claim that the call is deferred until the first read. -/
theorem write_on_idle_issues_call :
    (streamWrite envRP base0 streamRP [55]).sent.length = 1 := by
  decide

/-- C6 amended: a write on an Idle stream itself runs `execute`, issuing
exactly the HTTP traffic `execute` issues with the written bytes as the
payload (every issued request carries them as its body); a read on an Idle
stream runs `execute` with the empty payload. -/
theorem idle_write_executes_immediately (env : Env) (b : String)
    (st : UreqSubtransport) (data : List UInt8) (bufLen : Nat)
    (h : st.reader = none) :
    (streamWrite env b st data).sent = (execute env b st data).sent
    ∧ (streamRead env b st bufLen).sent = (execute env b st []).sent
    ∧ ∀ req ∈ (streamWrite env b st data).sent, req.body = data := by
  have hw : (streamWrite env b st data).sent = (execute env b st data).sent := by
    simp only [streamWrite, h]
    repeat' split
    all_goals simp_all
  have hr : (streamRead env b st bufLen).sent = (execute env b st []).sent := by
    simp only [streamRead, h]
    repeat' split
    all_goals simp_all
  refine ⟨hw, hr, ?_⟩
  rw [hw]
  exact execute_sent_body env b st data

/-- C6 witness: on a fresh receive-pack stream, the first write sends
exactly what `execute` sends for that payload. -/
theorem idle_write_executes_immediately_witness :
    (streamWrite envRP base0 streamRP [55]).sent
      = (execute envRP base0 streamRP [55]).sent :=
  (idle_write_executes_immediately envRP base0 streamRP [55] 1 rfl).1

/-- C7 counterexample: with a first action whose url argument is the empty
string, the resolved base URL is not fixed to the first action's url — the
second action's url argument is not ignored but overwrites the cell. -/
theorem empty_first_url_not_captured :
    (action (action "" "" .uploadPackLs).1 "https://b.example/x" .uploadPack).1
        = "https://b.example/x"
    ∧ (action (action "" "" .uploadPackLs).1 "https://b.example/x" .uploadPack).1
        ≠ "" := by
  decide

/-- C7 amended: provided the first action's url argument is non-empty, the
Resolved Base URL is set exactly once, to that url; every later action's
url argument is ignored (the cell still holds the first url after any
sequence of further actions), and every request issued by a stream
executing against the resolved cell targets the first url concatenated
with the stream's path suffix. -/
theorem first_nonempty_url_fixes_base (u0 : String) (a0 : Service)
    (rest : List (String × Service)) (h : u0.length ≠ 0) :
    sessionSteps (action "" u0 a0).1 rest = u0
    ∧ ∀ env st data req, req ∈ (execute env u0 st data).sent →
        req.url = u0 ++ st.url_path := by
  have h0 : (action "" u0 a0).1 = u0 := by simp [action]
  refine ⟨?_, ?_⟩
  · rw [h0]; exact sessionSteps_keeps_nonempty rest u0 h
  · intro env st data req hreq
    exact execute_sent_url env u0 st data req hreq

/-- C7 witness: a session whose first action used `base0` still resolves
to `base0` after a second action with a different url. -/
theorem first_nonempty_url_fixes_base_witness :
    sessionSteps (action "" base0 .uploadPackLs).1
        [("https://b.example/x", .uploadPack)] = base0 :=
  (first_nonempty_url_fixes_base base0 .uploadPackLs
    [("https://b.example/x", .uploadPack)] (by decide)).1

/-- C9: validating the response content type on a 200 response.  A missing
Content-Type header fails with MissingContentType; a value different from
the expected media type (advertisement for GET, result for POST) fails
with ContentTypeMismatch(expected, actual); an exact match succeeds and
retains the response body as the stream's reader. -/
theorem execute_200_checks_content_type (env : Env) (base : String)
    (st : UreqSubtransport) (data : List UInt8) (parsed : UrlParts)
    (host : String) (resp : HttpResponse)
    (hsr : st.sent_request = false)
    (hp : env.parseUrl (base ++ st.url_path) = some parsed)
    (hh : parsed.host = some host)
    (hsend : ∀ r, env.send r = .ok resp)
    (hcode : resp.status = 200) :
    (resp.contentType = none →
      (execute env base st data).outcome
        = .ioError (missingContentTypeMsg (expectedContentType st.method st.service))
      ∧ (execute env base st data).state = st)
    ∧ (∀ ct, resp.contentType = some ct →
        ct ≠ expectedContentType st.method st.service →
      (execute env base st data).outcome
        = .ioError (contentTypeMismatchMsg (expectedContentType st.method st.service) ct)
      ∧ (execute env base st data).state = st)
    ∧ (resp.contentType = some (expectedContentType st.method st.service) →
      (execute env base st data).outcome = .ok
      ∧ (execute env base st data).state.reader = some resp.body) := by
  refine ⟨?_, ?_, ?_⟩
  · intro hct
    have hm : execute env base st data
        = { state := st
            sent := [builtRequest env.version host st (base ++ st.url_path) data]
            outcome := .ioError
              (missingContentTypeMsg (expectedContentType st.method st.service)) } := by
      simp only [execute, hsr, Bool.false_eq_true, if_false, hp, hh, hsend, hcode,
        ne_eq, not_true_eq_false, if_false, hct]
    rw [hm]
    exact ⟨rfl, rfl⟩
  · intro ct hct hne
    have hm : execute env base st data
        = { state := st
            sent := [builtRequest env.version host st (base ++ st.url_path) data]
            outcome := .ioError
              (contentTypeMismatchMsg (expectedContentType st.method st.service) ct) } := by
      simp only [execute, hsr, Bool.false_eq_true, if_false, hp, hh, hsend, hcode,
        ne_eq, not_true_eq_false, if_false, hct, hne, not_false_eq_true, if_true]
    rw [hm]
    exact ⟨rfl, rfl⟩
  · intro hct
    have hm : (execute env base st data).outcome = .ok
        ∧ (execute env base st data).state.reader = some resp.body := by
      simp only [execute, hsr, Bool.false_eq_true, if_false, hp, hh, hsend, hcode,
        ne_eq, not_true_eq_false, if_false, hct]
      simp
    exact hm

/-- C9 witness: a 200 response with the exact receive-pack result media
type makes `execute` succeed and retain the body. -/
theorem execute_200_checks_content_type_witness :
    (execute envRP base0 streamRP [55]).outcome = .ok
    ∧ (execute envRP base0 streamRP [55]).state.reader = some [48, 48, 48, 56] :=
  (execute_200_checks_content_type envRP base0 streamRP [55]
    ⟨some "example.test"⟩ "example.test"
    ⟨200, some "application/x-git-receive-pack-result", [48, 48, 48, 56]⟩
    rfl rfl rfl (fun _ => rfl) rfl).2.2 rfl

/-- C10: the `sent_request` flag is false at stream construction and no
operation ever sets it, so the `execute` re-entry guard never fires: no
sequence of read, write or flush operations can return the
AlreadyExecuted ("already sent HTTP request") error. -/
theorem sent_request_flag_is_dead (env : Env) (base cellInit url : String)
    (svc : Service) (ops : List Op) :
    ((action cellInit url svc).2).sent_request = false
    ∧ (runOps env base (action cellInit url svc).2 ops).state.sent_request = false
    ∧ NoAlreadyExecuted (runOps env base (action cellInit url svc).2 ops).outcomes := by
  obtain ⟨h1, h2⟩ := runOps_invariant env base ops (action cellInit url svc).2 rfl
  exact ⟨rfl, h1, h2⟩

/-- C10 witness: a concrete mixed run of reads, writes and flushes on a
fresh stream, with every outcome away from the AlreadyExecuted error. -/
theorem sent_request_flag_is_dead_witness :
    ((action "" base0 .uploadPackLs).2).sent_request = false
    ∧ NoAlreadyExecuted (runOps env500 base0 (action "" base0 .uploadPackLs).2
        [.read 1, .write [55], .flush, .read 2]).outcomes :=
  ⟨(sent_request_flag_is_dead env500 base0 "" base0 .uploadPackLs
      [.read 1, .write [55], .flush, .read 2]).1,
   (sent_request_flag_is_dead env500 base0 "" base0 .uploadPackLs
      [.read 1, .write [55], .flush, .read 2]).2.2⟩
